import Mathlib

/-!
Verification of the GitHub webhook listener (src/app.py) against its
natural-language specification.

The embedding is shallow: the process-wide mutable list `errors` becomes the
`errors` field of an explicit state `St` threaded through the handlers; the
external collaborators (the HMAC primitive, the git clone subprocess, the
filesystem produced by a clone, and the behaviour of `python file` as a
subprocess) are supplied as data in an environment `Env` / in `PyFile`
records, exactly along the boundaries the spec declares as black boxes.
Side effects that the claims talk about (clone attempts, syntax checks,
runtime executions, temporary-directory creation and removal) are recorded
in the state: `trace` lists the external calls in order and `liveTempDirs`
counts temporary directories created and not yet removed.
-/

namespace GitApp

/-- Positional information of a Python `SyntaxError` raised by `compile()`:
line number and parser message (src/app.py line 32-33 reads `e.lineno` and
`e.msg`). -/
structure ParseErr where
  lineno : Nat
  msg : String
deriving DecidableEq

/-- Outcome of executing a file with `subprocess.run(["python", file],
timeout=10)`: either the 10-unit timeout expired, or the process finished
with an exit code, a captured stdout and a captured stderr. -/
inductive RunOutcome where
  | timeout
  | finished (returncode : Int) (stdout : String) (stderr : String)
deriving DecidableEq

/-- What the two checkers can observe of one file in the checkout: the
`SyntaxError` that `compile()` raises on its contents (none = parses), and
the behaviour of running it as a subprocess. -/
structure PyFile where
  compileError : Option ParseErr
  run : RunOutcome
deriving DecidableEq

/-- A push-handler checkout: the partial map from a commit-relative path to
the file found at `os.path.join(temp_dir, file_path)` (`none` models
`os.path.exists` returning False). -/
abbrev Checkout := String → Option PyFile

/-- One file yielded by `os.walk` in `run_checks_on_repo`: the directory
`root`, the basename `name`, and the file's content behaviour. -/
structure WalkEntry where
  root : String
  name : String
  pyfile : PyFile

/-- Result of `subprocess.run(["git", "clone", ...], check=True)`: a checkout
on exit code 0, or the non-zero exit code on which `check=True` raises
`CalledProcessError`. -/
inductive CloneResult (α : Type) where
  | ok (checkout : α)
  | failed (code : Int)

/-- The external collaborators, fixed for a run of the service:
`hmacHex payload` is the lowercase hex digest of HMAC-SHA256 over the raw
request bytes keyed by the configured `GITHUB_WEBHOOK_SECRET` (the
cryptographic primitive is a black box per the spec); `clonePush url` is
what `git clone url` produces; `clonePR branch url` is what
`git clone --branch branch url` produces. -/
structure Env where
  hmacHex : String → String
  clonePush : String → CloneResult Checkout
  clonePR : String → String → CloneResult (List WalkEntry)

/-- One commit of a push payload: its `added` and `modified` path lists. -/
structure PushCommit where
  added : List String
  modified : List String
deriving DecidableEq

/-- The fields of the decoded webhook JSON payload that src/app.py reads:
`repository.clone_url`, the commit list (push), and `action`, `number`,
`pull_request.head.ref` (pull request). -/
structure Payload where
  clone_url : String
  commits : List PushCommit
  action : String
  number : Nat
  head_ref : String
deriving DecidableEq

/-- External calls a delivery performs, recorded in order: a
`git clone` invocation (with the branch for the PR variant), a syntax check
of a path (`check_syntax`, which opens and compiles the file), and a runtime
execution of a path (`run_file`, which spawns a subprocess). -/
inductive Event where
  | cloneAttempted (url : String) (branch : Option String)
  | compiledFile (path : String)
  | ranFile (path : String)
deriving DecidableEq

/-- The process state the handlers touch: the module-level `errors` list
(src/app.py line 20), plus instrumentation: the number of temporary
directories created by `mkdtemp` and not yet removed by `safe_rmtree`, and
the trace of external calls. -/
structure St where
  errors : List String
  liveTempDirs : Nat
  trace : List Event
deriving DecidableEq

/-- An HTTP request to POST /webhook: the raw body bytes (`request.data`),
the `X-Hub-Signature-256` header, the `X-GitHub-Event` header, and the
decoded JSON body (`request.json`). -/
structure Request where
  data : String
  signature : Option String
  event : Option String
  payload : Payload

/-- A `jsonify(...)` response: the `status` field, the optional
`errors_found` and `details` fields (present for push/PR responses), the
optional `event` field (present for the `ignored` response), and the HTTP
status code. -/
structure HttpResponse where
  status : String
  errors_found : Option Nat
  details : Option (List String)
  event : Option String
  code : Nat
deriving DecidableEq

/-- What POST /webhook does for one delivery: reject with 401 via
`abort(401)`, return a structured response, or propagate the
`CalledProcessError` of a failed clone (no structured response at all). -/
inductive WebhookOutcome where
  | aborted401
  | response (r : HttpResponse)
  | cloneException (code : Int)
deriving DecidableEq

/-- Message built at src/app.py line 33:
`f"Syntax Error in {file_path} at line {e.lineno}: {e.msg}"`. -/
def compile_error_message (file_path : String) (lineno : Nat) (msg : String) : String :=
  "Syntax Error in " ++ file_path ++ " at line " ++ toString lineno ++ ": " ++ msg

/-- Message built at src/app.py line 45:
`f"Runtime error in {file_path}:\n{result.stderr.strip()}"`. -/
def runtime_error_message (file_path : String) (stderr : String) : String :=
  "Runtime error in " ++ file_path ++ ":\n" ++ stderr

/-- Message built at src/app.py line 47:
`f"Output from {file_path}:\n{result.stdout.strip()}"`. -/
def output_message (file_path : String) (stdout : String) : String :=
  "Output from " ++ file_path ++ ":\n" ++ stdout

/-- Message built at src/app.py line 50:
`f"Timeout while running {file_path} (possible infinite loop)"`. -/
def timeout_message (file_path : String) : String :=
  "Timeout while running " ++ file_path ++ " (possible infinite loop)"

/-- Message built at src/app.py lines 83 and 111: `f"{x}: No errors"`. -/
def no_errors_message (x : String) : String := x ++ ": No errors"

/-- Message built at src/app.py line 115: `f"{file_path}: File not found in repo"`. -/
def not_found_message (file_path : String) : String := file_path ++ ": File not found in repo"

/-- Embeds `check_syntax` (src/app.py lines 26-33): reads and compiles the
file, returns `None` when it parses and the formatted message when
`compile()` raises `SyntaxError`. -/
def compile_check (f : PyFile) (file_path : String) : Option String :=
  match f.compileError with
  | some e => some (compile_error_message file_path e.lineno e.msg)
  | none => none

/-- Embeds `run_file` (src/app.py lines 36-50): the `TimeoutExpired`
handler takes priority (the `try` body never returns when the exception is
raised); otherwise a non-zero exit code yields the runtime-error message
with the stripped stderr, a non-empty stripped stdout yields the output
message, and an empty stripped stdout yields `None`. Python's `str.strip()`
is modelled by `String.trim`. -/
def run_file (f : PyFile) (file_path : String) : Option String :=
  match f.run with
  | RunOutcome.timeout => some (timeout_message file_path)
  | RunOutcome.finished rc out err =>
      if rc ≠ 0 then some (runtime_error_message file_path err.trim)
      else if out.trim ≠ "" then some (output_message file_path out.trim)
      else none

/-- Embeds `hmac.compare_digest` on two strings: a timing-safe equality
test, extensionally plain equality. -/
def compare_digest (a b : String) : Bool := a == b

/-- Embeds `verify_signature` (src/app.py lines 53-56): builds
`f"sha256={mac.hexdigest()}"` over the raw payload and compares it against
the header value with `compare_digest`. -/
def verify_signature (env : Env) (payload : String) (signature : String) : Bool :=
  compare_digest ("sha256=" ++ env.hmacHex payload) signature

/-- Python's `str.endswith(suffix)` on the character sequence
(`String.endsWith` of core compares via byte-position loops that the kernel
cannot evaluate; this form states the same predicate over `String.data`). -/
def ends_with (p suffix : String) : Bool := suffix.data.isSuffixOf p.data

/-- The body of the push handler's per-path loop (src/app.py lines 98-117):
the entries it appends to `errors` and the external calls it makes. A path
not ending in ".py" is skipped entirely; an existing file is syntax-checked
and, only when that is clean, executed; a missing file yields the
not-found message with no check at all. -/
def check_one (co : Checkout) (file_path : String) : List String × List Event :=
  if ends_with file_path ".py" then
    match co file_path with
    | some f =>
        match compile_check f file_path with
        | some error => ([error], [Event.compiledFile file_path])
        | none =>
            match run_file f file_path with
            | some runtime_error =>
                ([runtime_error], [Event.compiledFile file_path, Event.ranFile file_path])
            | none =>
                ([no_errors_message file_path],
                 [Event.compiledFile file_path, Event.ranFile file_path])
    | none => ([not_found_message file_path], [])
  else ([], [])

/-- Applies one loop iteration's effect to the state: append its entries to
the global `errors` list and its external calls to the trace. -/
def applyEntry (r : List String × List Event) (s : St) : St :=
  { s with errors := s.errors ++ r.1, trace := s.trace ++ r.2 }

/-- Embeds `handle_push` (src/app.py lines 88-122): `mkdtemp` creates a
temporary directory; `git clone` with `check=True` either fails (the
`CalledProcessError` propagates — `Except.error`, and note the directory is
not removed on this path) or yields a checkout; the nested loops walk
commits in payload order and each commit's `added ++ modified` in order;
`safe_rmtree` then removes the directory and the 200 response reports the
whole global log. -/
def handle_push (env : Env) (payload : Payload) (s : St) : St × Except Int HttpResponse :=
  let s1 : St := { s with liveTempDirs := s.liveTempDirs + 1,
                          trace := s.trace ++ [Event.cloneAttempted payload.clone_url none] }
  match env.clonePush payload.clone_url with
  | CloneResult.failed rc => (s1, Except.error rc)
  | CloneResult.ok co =>
      let s2 := payload.commits.foldl
        (fun t c => (c.added ++ c.modified).foldl (fun u p => applyEntry (check_one co p) u) t) s1
      let s3 : St := { s2 with liveTempDirs := s2.liveTempDirs - 1 }
      (s3, Except.ok { status := "push checked", errors_found := some s3.errors.length,
                       details := some s3.errors, event := none, code := 200 })

/-- `os.path.join(root, file)` for a walked file. -/
def abs_path_of (w : WalkEntry) : String := w.root ++ "/" ++ w.name

/-- The body of the `run_checks_on_repo` loop (src/app.py lines 69-85) for
one walked file: same check pipeline as the push loop, except that there is
no existence test (the walker only yields existing files) and the
"No errors" message uses the basename `file`, not the joined path. -/
def repo_check_one (w : WalkEntry) : List String × List Event :=
  if ends_with w.name ".py" then
    match compile_check w.pyfile (abs_path_of w) with
    | some error => ([error], [Event.compiledFile (abs_path_of w)])
    | none =>
        match run_file w.pyfile (abs_path_of w) with
        | some runtime_error =>
            ([runtime_error], [Event.compiledFile (abs_path_of w), Event.ranFile (abs_path_of w)])
        | none =>
            ([no_errors_message w.name],
             [Event.compiledFile (abs_path_of w), Event.ranFile (abs_path_of w)])
  else ([], [])

/-- Embeds `run_checks_on_repo` (src/app.py lines 68-85) over the walked
file sequence of a checkout. -/
def run_checks_on_repo (entries : List WalkEntry) (s : St) : St :=
  entries.foldl (fun t w => applyEntry (repo_check_one w) t) s

/-- The `jsonify({"status": "skipped"}), 200` response of src/app.py line 133. -/
def skipped_response : HttpResponse :=
  { status := "skipped", errors_found := none, details := none, event := none, code := 200 }

/-- Embeds `handle_pull_request` (src/app.py lines 125-146): actions outside
{opened, synchronize, reopened} short-circuit with the skipped response and
no `mkdtemp`, no clone and no log append; a qualifying action creates a
temporary directory, clones the head branch (failure propagates, directory
not removed), walks the checkout, cleans up, and reports the whole log. -/
def handle_pull_request (env : Env) (payload : Payload) (s : St) : St × Except Int HttpResponse :=
  if payload.action ∉ (["opened", "synchronize", "reopened"] : List String) then
    (s, Except.ok skipped_response)
  else
    let s1 : St := { s with liveTempDirs := s.liveTempDirs + 1,
                            trace := s.trace ++
                              [Event.cloneAttempted payload.clone_url (some payload.head_ref)] }
    match env.clonePR payload.head_ref payload.clone_url with
    | CloneResult.failed rc => (s1, Except.error rc)
    | CloneResult.ok entries =>
        let s2 := run_checks_on_repo entries s1
        let s3 : St := { s2 with liveTempDirs := s2.liveTempDirs - 1 }
        (s3, Except.ok { status := "PR checked", errors_found := some s3.errors.length,
                         details := some s3.errors, event := none, code := 200 })

/-- Lifts a handler result to the delivery outcome: a propagated clone
exception produces no structured response. -/
def toOutcome : Except Int HttpResponse → WebhookOutcome
  | Except.error rc => WebhookOutcome.cloneException rc
  | Except.ok r => WebhookOutcome.response r

/-- Embeds the `webhook` route (src/app.py lines 149-164): a missing or
non-verifying `X-Hub-Signature-256` header aborts with 401 before anything
else happens; otherwise the `X-GitHub-Event` header routes to the push or
pull-request handler, and any other event yields the ignored response. -/
def webhook (env : Env) (req : Request) (s : St) : St × WebhookOutcome :=
  match req.signature with
  | none => (s, WebhookOutcome.aborted401)
  | some sig =>
      if verify_signature env req.data sig then
        if req.event = some "push" then
          let r := handle_push env req.payload s
          (r.1, toOutcome r.2)
        else if req.event = some "pull_request" then
          let r := handle_pull_request env req.payload s
          (r.1, toOutcome r.2)
        else
          (s, WebhookOutcome.response { status := "ignored", errors_found := none,
                                        details := none, event := req.event, code := 200 })
      else (s, WebhookOutcome.aborted401)

/-- Embeds GET /errors (src/app.py lines 167-169): the whole accumulated
log, unfiltered. -/
def get_errors (s : St) : List String := s.errors

/-- The state after one delivery. -/
def deliver (env : Env) (s : St) (req : Request) : St := (webhook env req s).1

/-- The state after a sequence of deliveries, in order. -/
def deliverAll (env : Env) (s : St) (reqs : List Request) : St :=
  reqs.foldl (deliver env) s

/-- The entries each delivery of the sequence appends, in delivery order. -/
def deliveryDeltas (env : Env) (s : St) : List Request → List (List String)
  | [] => []
  | r :: rs =>
      (deliver env s r).errors.drop s.errors.length ::
        deliveryDeltas env (deliver env s r) rs

/-- All paths a push payload lists: each commit's `added ++ modified`, in
payload order. -/
def commitPaths (commits : List PushCommit) : List String :=
  commits.flatMap (fun c => c.added ++ c.modified)

/-- All paths the payload lists, in the order the handler visits them. -/
def listedPaths (payload : Payload) : List String := commitPaths payload.commits

/-- All paths in the payload's `added` lists. -/
def listedAdded (payload : Payload) : List String :=
  payload.commits.flatMap (fun c => c.added)

/-- The ".py" paths of a list, in order. -/
def pyFilter (paths : List String) : List String :=
  paths.filter (fun p => ends_with p ".py")

/-- The entries the push loop appends for a path list, in order. -/
def pushAppended (co : Checkout) (paths : List String) : List String :=
  paths.flatMap (fun p => (check_one co p).1)

/-- The external calls the push loop makes for a path list, in order. -/
def pushEvents (co : Checkout) (paths : List String) : List Event :=
  paths.flatMap (fun p => (check_one co p).2)

/-- The entries `run_checks_on_repo` appends for a walked-file list. -/
def repoAppended (entries : List WalkEntry) : List String :=
  entries.flatMap (fun w => (repo_check_one w).1)

/-- The external calls `run_checks_on_repo` makes for a walked-file list. -/
def repoEvents (entries : List WalkEntry) : List Event :=
  entries.flatMap (fun w => (repo_check_one w).2)

/-- Modelled from the spec's per-path description of the push branch
("if the path exists in the checkout run Syntax Checker then (only if
clean) Runtime Checker; append exactly one result string per path (or
'not found')"): the one result string of a checked path. -/
def pathResult (co : Checkout) (p : String) : String :=
  match co p with
  | none => not_found_message p
  | some f =>
      match compile_check f p with
      | some e => e
      | none =>
          match run_file f p with
          | some r => r
          | none => no_errors_message p

/-! ### Concrete inputs used by witnesses and counterexamples -/

/-- A file that parses and runs cleanly (exit 0, no output). -/
def pyClean : PyFile := { compileError := none, run := RunOutcome.finished 0 "" "" }

/-- A file whose contents fail to parse at line 3. -/
def pyBad : PyFile :=
  { compileError := some { lineno := 3, msg := "invalid syntax" },
    run := RunOutcome.finished 0 "" "" }

/-- A file that parses but sleeps past the 10-unit timeout. -/
def pySleep : PyFile := { compileError := none, run := RunOutcome.timeout }

/-- A checkout holding a clean `ok.py` and an unparsable `bad.py`;
everything else is absent. -/
def coW : Checkout := fun p =>
  if p = "ok.py" then some pyClean
  else if p = "bad.py" then some pyBad
  else none

/-- Environment whose clones succeed and produce `coW` (push) or an empty
walk (pull request). -/
def envW : Env :=
  { hmacHex := fun _ => "adc83b19e793491b1c6ea0fd8b46cd9f32e592fc",
    clonePush := fun _ => CloneResult.ok coW,
    clonePR := fun _ _ => CloneResult.ok [] }

/-- Environment whose git clone always exits with code 128. -/
def envFailW : Env :=
  { hmacHex := fun _ => "adc83b19e793491b1c6ea0fd8b46cd9f32e592fc",
    clonePush := fun _ => CloneResult.failed 128,
    clonePR := fun _ _ => CloneResult.failed 128 }

/-- The freshly started process state: empty log, no live temp dirs. -/
def st0 : St := { errors := [], liveTempDirs := 0, trace := [] }

/-- A state left by some earlier delivery: the log already has one entry. -/
def stOld : St := { errors := ["old entry"], liveTempDirs := 0, trace := [] }

/-- Push payload whose single commit adds only a non-Python path. -/
def payloadTxt : Payload :=
  { clone_url := "https://example.com/r.git",
    commits := [{ added := ["notes.txt"], modified := [] }],
    action := "", number := 1, head_ref := "main" }

/-- Push payload whose single commit adds a non-Python path that is absent
from the checkout. -/
def payloadCsv : Payload :=
  { clone_url := "https://example.com/r.git",
    commits := [{ added := ["data.csv"], modified := [] }],
    action := "", number := 1, head_ref := "main" }

/-- Push payload mixing an existing Python file, a non-Python path and a
missing Python file. -/
def payloadMix : Payload :=
  { clone_url := "https://example.com/r.git",
    commits := [{ added := ["ok.py", "README.md"], modified := ["gone.py"] }],
    action := "", number := 1, head_ref := "main" }

/-- Push payload listing the unparsable `bad.py`. -/
def payloadBad : Payload :=
  { clone_url := "https://example.com/r.git",
    commits := [{ added := ["bad.py"], modified := [] }],
    action := "", number := 1, head_ref := "main" }

/-- Push payload adding a Python path absent from the checkout. -/
def payloadGone : Payload :=
  { clone_url := "https://example.com/r.git",
    commits := [{ added := ["gone.py"], modified := [] }],
    action := "", number := 1, head_ref := "main" }

/-- Push payload with no commits at all. -/
def payloadEmpty : Payload :=
  { clone_url := "https://example.com/r.git", commits := [],
    action := "", number := 1, head_ref := "main" }

/-- Pull-request payload with the qualifying action "opened". -/
def payloadPR : Payload :=
  { clone_url := "https://example.com/r.git", commits := [],
    action := "opened", number := 7, head_ref := "feature" }

/-- Pull-request payload with the non-qualifying action "closed". -/
def payloadClosed : Payload :=
  { clone_url := "https://example.com/r.git", commits := [],
    action := "closed", number := 7, head_ref := "feature" }

/-- A request with no `X-Hub-Signature-256` header at all. -/
def reqNoSig : Request :=
  { data := "body-bytes", signature := none, event := some "push", payload := payloadEmpty }

/-- The state `handle_push envW payloadEmpty stOld` ends in. -/
def stC10 : St :=
  { errors := ["old entry"], liveTempDirs := 0,
    trace := [Event.cloneAttempted "https://example.com/r.git" none] }

/-- The response `handle_push envW payloadEmpty stOld` returns. -/
def respC10 : HttpResponse :=
  { status := "push checked", errors_found := some 1, details := some ["old entry"],
    event := none, code := 200 }

/-! ### Helper lemmas about the loops and handlers -/

lemma foldl_applyEntry {α : Type} (f : α → List String × List Event) (l : List α) (s : St) :
    l.foldl (fun t a => applyEntry (f a) t) s =
      { s with errors := s.errors ++ l.flatMap (fun a => (f a).1),
               trace := s.trace ++ l.flatMap (fun a => (f a).2) } := by
  induction l generalizing s with
  | nil => simp [applyEntry]
  | cons a l ih =>
      rw [List.foldl_cons, ih]
      simp [applyEntry, List.flatMap_cons, List.append_assoc]

lemma pushFold_eq (co : Checkout) (commits : List PushCommit) (s : St) :
    commits.foldl
        (fun t c => (c.added ++ c.modified).foldl (fun u p => applyEntry (check_one co p) u) t) s =
      { s with errors := s.errors ++ pushAppended co (commitPaths commits),
               trace := s.trace ++ pushEvents co (commitPaths commits) } := by
  induction commits generalizing s with
  | nil => simp [pushAppended, pushEvents, commitPaths]
  | cons c cs ih =>
      rw [List.foldl_cons, foldl_applyEntry, ih]
      simp [pushAppended, pushEvents, commitPaths, List.flatMap_cons, List.flatMap_append,
        List.append_assoc]

lemma run_checks_on_repo_eq (entries : List WalkEntry) (s : St) :
    run_checks_on_repo entries s =
      { s with errors := s.errors ++ repoAppended entries,
               trace := s.trace ++ repoEvents entries } := by
  simp only [run_checks_on_repo, foldl_applyEntry, repoAppended, repoEvents]

lemma handle_push_ok_eq (env : Env) (payload : Payload) (s : St) (co : Checkout)
    (h : env.clonePush payload.clone_url = CloneResult.ok co) :
    handle_push env payload s =
      ({ errors := s.errors ++ pushAppended co (listedPaths payload),
         liveTempDirs := s.liveTempDirs,
         trace := (s.trace ++ [Event.cloneAttempted payload.clone_url none]) ++
                    pushEvents co (listedPaths payload) },
       Except.ok { status := "push checked",
                   errors_found := some (s.errors ++ pushAppended co (listedPaths payload)).length,
                   details := some (s.errors ++ pushAppended co (listedPaths payload)),
                   event := none, code := 200 }) := by
  simp only [handle_push, h, pushFold_eq, listedPaths, Nat.add_sub_cancel]

lemma handle_push_failed_eq (env : Env) (payload : Payload) (s : St) (rc : Int)
    (h : env.clonePush payload.clone_url = CloneResult.failed rc) :
    handle_push env payload s =
      ({ errors := s.errors, liveTempDirs := s.liveTempDirs + 1,
         trace := s.trace ++ [Event.cloneAttempted payload.clone_url none] },
       Except.error rc) := by
  simp only [handle_push, h]

lemma handle_pr_skipped_eq (env : Env) (payload : Payload) (s : St)
    (h : payload.action ∉ (["opened", "synchronize", "reopened"] : List String)) :
    handle_pull_request env payload s = (s, Except.ok skipped_response) := by
  simp only [handle_pull_request, if_pos h]

lemma handle_pr_ok_eq (env : Env) (payload : Payload) (s : St) (entries : List WalkEntry)
    (ha : payload.action ∈ (["opened", "synchronize", "reopened"] : List String))
    (h : env.clonePR payload.head_ref payload.clone_url = CloneResult.ok entries) :
    handle_pull_request env payload s =
      ({ errors := s.errors ++ repoAppended entries,
         liveTempDirs := s.liveTempDirs,
         trace := (s.trace ++ [Event.cloneAttempted payload.clone_url (some payload.head_ref)]) ++
                    repoEvents entries },
       Except.ok { status := "PR checked",
                   errors_found := some (s.errors ++ repoAppended entries).length,
                   details := some (s.errors ++ repoAppended entries),
                   event := none, code := 200 }) := by
  have hcond : ¬ payload.action ∉ (["opened", "synchronize", "reopened"] : List String) := by
    simp [ha]
  simp only [handle_pull_request, if_neg hcond, h, run_checks_on_repo_eq, Nat.add_sub_cancel]

lemma handle_pr_failed_eq (env : Env) (payload : Payload) (s : St) (rc : Int)
    (ha : payload.action ∈ (["opened", "synchronize", "reopened"] : List String))
    (h : env.clonePR payload.head_ref payload.clone_url = CloneResult.failed rc) :
    handle_pull_request env payload s =
      ({ errors := s.errors, liveTempDirs := s.liveTempDirs + 1,
         trace := s.trace ++ [Event.cloneAttempted payload.clone_url (some payload.head_ref)] },
       Except.error rc) := by
  have hcond : ¬ payload.action ∉ (["opened", "synchronize", "reopened"] : List String) := by
    simp [ha]
  simp only [handle_pull_request, if_neg hcond, h]

lemma check_one_fst (co : Checkout) (p : String) :
    (check_one co p).1 = if ends_with p ".py" then [pathResult co p] else [] := by
  by_cases hp : ends_with p ".py"
  · cases hco : co p with
    | none => simp [check_one, pathResult, hp, hco]
    | some f =>
        cases hc : compile_check f p with
        | some e => simp [check_one, pathResult, hp, hco, hc]
        | none =>
            cases hr : run_file f p with
            | some r => simp [check_one, pathResult, hp, hco, hc, hr]
            | none => simp [check_one, pathResult, hp, hco, hc, hr]
  · simp [check_one, hp]

lemma pushAppended_eq_map (co : Checkout) (paths : List String) :
    pushAppended co paths = (pyFilter paths).map (pathResult co) := by
  induction paths with
  | nil => rfl
  | cons p ps ih =>
      by_cases hp : ends_with p ".py" <;>
        simp [pushAppended, pyFilter, List.flatMap_cons, check_one_fst, hp, List.filter_cons,
          ih, pushAppended, pyFilter] at *
      · exact ih
      · exact ih

lemma ranFile_mem_check_one {co : Checkout} {p q : String}
    (h : Event.ranFile p ∈ (check_one co q).2) :
    p = q ∧ ∃ g, co q = some g ∧ compile_check g q = none := by
  by_cases hq : ends_with q ".py"
  · cases hco : co q with
    | none => simp [check_one, hq, hco] at h
    | some g =>
        cases hc : compile_check g q with
        | some e => simp [check_one, hq, hco, hc] at h
        | none =>
            cases hr : run_file g q with
            | some r =>
                simp [check_one, hq, hco, hc, hr] at h
                exact ⟨h, g, rfl, hc⟩
            | none =>
                simp [check_one, hq, hco, hc, hr] at h
                exact ⟨h, g, rfl, hc⟩
  · simp [check_one, hq] at h

lemma compiledFile_mem_check_one {co : Checkout} {p q : String}
    (h : Event.compiledFile p ∈ (check_one co q).2) :
    p = q ∧ ∃ g, co q = some g := by
  by_cases hq : ends_with q ".py"
  · cases hco : co q with
    | none => simp [check_one, hq, hco] at h
    | some g =>
        cases hc : compile_check g q with
        | some e =>
            simp [check_one, hq, hco, hc] at h
            exact ⟨h, g, rfl⟩
        | none =>
            cases hr : run_file g q with
            | some r =>
                simp [check_one, hq, hco, hc, hr] at h
                exact ⟨h, g, rfl⟩
            | none =>
                simp [check_one, hq, hco, hc, hr] at h
                exact ⟨h, g, rfl⟩
  · simp [check_one, hq] at h

lemma ranFile_not_mem_pushEvents_of_compile_error (co : Checkout) (p : String) (f : PyFile)
    (e : ParseErr) (hf : co p = some f) (he : f.compileError = some e) (paths : List String) :
    Event.ranFile p ∉ pushEvents co paths := by
  intro h
  rcases List.mem_flatMap.mp h with ⟨q, _, hmem⟩
  obtain ⟨rfl, g, hg, hc⟩ := ranFile_mem_check_one hmem
  rw [hf] at hg
  cases hg
  simp [compile_check, he] at hc

lemma not_mem_pushEvents_of_missing (co : Checkout) (p : String)
    (hnone : co p = none) (paths : List String) :
    Event.compiledFile p ∉ pushEvents co paths ∧ Event.ranFile p ∉ pushEvents co paths := by
  constructor <;> intro h <;> rcases List.mem_flatMap.mp h with ⟨q, _, hmem⟩
  · obtain ⟨rfl, g, hg⟩ := compiledFile_mem_check_one hmem
    rw [hnone] at hg
    cases hg
  · obtain ⟨rfl, g, hg, _⟩ := ranFile_mem_check_one hmem
    rw [hnone] at hg
    cases hg

lemma data_append (a b : String) : (a ++ b).data = a.data ++ b.data := rfl

lemma timeout_message_ne_runtime_error_message (p q e : String) :
    timeout_message p ≠ runtime_error_message q e := by
  intro h
  have h2 : (timeout_message p).data = (runtime_error_message q e).data := by rw [h]
  unfold timeout_message runtime_error_message at h2
  simp only [data_append] at h2
  simp only [List.cons_append, List.append_assoc] at h2
  injection h2 with hc _
  exact absurd hc (by decide)

lemma handle_push_errors_extend (env : Env) (payload : Payload) (s : St) :
    s.errors <+: (handle_push env payload s).1.errors := by
  cases h : env.clonePush payload.clone_url with
  | ok co => rw [handle_push_ok_eq env payload s co h]; exact List.prefix_append ..
  | failed rc => rw [handle_push_failed_eq env payload s rc h]

lemma handle_pr_errors_extend (env : Env) (payload : Payload) (s : St) :
    s.errors <+: (handle_pull_request env payload s).1.errors := by
  by_cases ha : payload.action ∈ (["opened", "synchronize", "reopened"] : List String)
  · cases h : env.clonePR payload.head_ref payload.clone_url with
    | ok entries => rw [handle_pr_ok_eq env payload s entries ha h]; exact List.prefix_append ..
    | failed rc => rw [handle_pr_failed_eq env payload s rc ha h]
  · rw [handle_pr_skipped_eq env payload s ha]

lemma deliver_errors_extend (env : Env) (req : Request) (s : St) :
    s.errors <+: (deliver env s req).errors := by
  unfold deliver webhook
  cases req.signature with
  | none => exact List.prefix_rfl
  | some sig =>
      by_cases hv : verify_signature env req.data sig <;>
        simp only [hv, if_true, if_false, Bool.false_eq_true, ite_false, ite_true]
      · by_cases hpush : req.event = some "push" <;>
          simp only [hpush, if_true, if_false, ite_false, ite_true]
        · exact handle_push_errors_extend env req.payload s
        · by_cases hpr : req.event = some "pull_request" <;>
            simp only [hpr, if_true, if_false, ite_false, ite_true]
          · exact handle_pr_errors_extend env req.payload s
          · exact List.prefix_rfl
      · exact List.prefix_rfl

lemma deliverAll_errors_concat (env : Env) (s : St) (reqs : List Request) :
    (deliverAll env s reqs).errors = s.errors ++ (deliveryDeltas env s reqs).flatten := by
  induction reqs generalizing s with
  | nil => simp [deliverAll, deliveryDeltas]
  | cons r rs ih =>
      have hstep : deliverAll env s (r :: rs) = deliverAll env (deliver env s r) rs := rfl
      obtain ⟨t, ht⟩ := deliver_errors_extend env r s
      rw [hstep, ih, deliveryDeltas, List.flatten_cons, ← ht, List.drop_left,
        List.append_assoc]

/-! ### The claims -/

/-- C1: for every request to POST /webhook whose X-Hub-Signature-256 header
is missing or does not verify against the body, the endpoint returns 401
and the whole state is exactly as it was before the request: the result log
has no new entry, the trace records no clone attempt, no temporary
directory is created. -/
theorem invalid_signature_rejected (env : Env) (req : Request) (s : St)
    (h : req.signature = none ∨
         ∃ sig, req.signature = some sig ∧ verify_signature env req.data sig = false) :
    webhook env req s = (s, WebhookOutcome.aborted401) := by
  rcases h with h | ⟨sig, hs, hv⟩
  · simp [webhook, h]
  · simp [webhook, hs, hv]

/-- Witness for C1: a delivery with no signature header is rejected with
401 and the fresh state is unchanged. -/
theorem invalid_signature_rejected_witness :
    webhook envW reqNoSig st0 = (st0, WebhookOutcome.aborted401) :=
  invalid_signature_rejected envW reqNoSig st0 (Or.inl rfl)

/-- C9: verify_signature returns true if and only if the header value
equals the string "sha256=" followed by the hex digest of HMAC-SHA256 of
the payload keyed by the configured shared secret (the keyed digest is the
oracle `Env.hmacHex`; `compare_digest` is extensionally equality). -/
theorem verify_signature_iff_expected (env : Env) (payload signature : String) :
    verify_signature env payload signature = true ↔
      signature = "sha256=" ++ env.hmacHex payload := by
  unfold verify_signature compare_digest
  rw [beq_iff_eq]
  exact eq_comm

/-- C3: run_file classifies the outcome with timeout taking priority, then
non-zero exit (runtime-error message carrying the stripped stderr), then
non-empty stripped stdout (output message), and otherwise no message; a
timed-out run yields the timeout message, which is never equal to any
runtime-error message. -/
theorem run_file_classification (f : PyFile) (p : String) (rc : Int) (out err : String) :
    (f.run = RunOutcome.timeout →
        run_file f p = some (timeout_message p) ∧
        ∀ q e, timeout_message p ≠ runtime_error_message q e) ∧
    (f.run = RunOutcome.finished rc out err → rc ≠ 0 →
        run_file f p = some (runtime_error_message p err.trim)) ∧
    (f.run = RunOutcome.finished rc out err → rc = 0 → out.trim ≠ "" →
        run_file f p = some (output_message p out.trim)) ∧
    (f.run = RunOutcome.finished rc out err → rc = 0 → out.trim = "" →
        run_file f p = none) := by
  refine ⟨?_, ?_, ?_, ?_⟩
  · intro h
    exact ⟨by simp [run_file, h],
           fun q e => timeout_message_ne_runtime_error_message p q e⟩
  · intro h hrc
    simp [run_file, h, hrc]
  · intro h hrc hout
    simp [run_file, h, hrc, hout]
  · intro h hrc hout
    simp [run_file, h, hrc, hout]

/-- Witness for C3: a file that sleeps past the timeout yields the timeout
entry. -/
theorem run_file_classification_witness :
    run_file pySleep "loop.py" = some (timeout_message "loop.py") :=
  ((run_file_classification pySleep "loop.py" 1 "" "").1 rfl).1

/-- C6: a pull-request payload whose action is not one of
{opened, synchronize, reopened} performs no clone, appends nothing, creates
no temporary directory, and returns the 200 "skipped" response with the
state exactly as before. -/
theorem pr_nonqualifying_action_skipped (env : Env) (payload : Payload) (s : St)
    (h : payload.action ∉ (["opened", "synchronize", "reopened"] : List String)) :
    handle_pull_request env payload s = (s, Except.ok skipped_response) :=
  handle_pr_skipped_eq env payload s h

/-- Witness for C6: action "closed" short-circuits with the skipped
response and an unchanged state. -/
theorem pr_nonqualifying_action_skipped_witness :
    handle_pull_request envW payloadClosed st0 = (st0, Except.ok skipped_response) :=
  pr_nonqualifying_action_skipped envW payloadClosed st0 (by decide)

/-- C7: when the clone subprocess exits non-zero, either handler propagates
the exception (no structured response, `Except.error`), appends nothing to
the result log, and leaves the freshly created temporary directory alive
(liveTempDirs goes up by one and is never decremented on this path). -/
theorem clone_failure_aborts_without_cleanup (env : Env) (payload : Payload) (s : St)
    (rc : Int) :
    (env.clonePush payload.clone_url = CloneResult.failed rc →
        handle_push env payload s =
          ({ errors := s.errors, liveTempDirs := s.liveTempDirs + 1,
             trace := s.trace ++ [Event.cloneAttempted payload.clone_url none] },
           Except.error rc)) ∧
    (payload.action ∈ (["opened", "synchronize", "reopened"] : List String) →
     env.clonePR payload.head_ref payload.clone_url = CloneResult.failed rc →
        handle_pull_request env payload s =
          ({ errors := s.errors, liveTempDirs := s.liveTempDirs + 1,
             trace := s.trace ++
               [Event.cloneAttempted payload.clone_url (some payload.head_ref)] },
           Except.error rc)) :=
  ⟨fun h => handle_push_failed_eq env payload s rc h,
   fun ha h => handle_pr_failed_eq env payload s rc ha h⟩

/-- Witness for C7: with a clone that exits 128, both handlers end in the
propagated exception with the log unchanged and one leaked directory. -/
theorem clone_failure_aborts_without_cleanup_witness :
    handle_push envFailW payloadEmpty st0 =
      ({ errors := [], liveTempDirs := 1,
         trace := [Event.cloneAttempted "https://example.com/r.git" none] },
       Except.error 128) ∧
    handle_pull_request envFailW payloadPR st0 =
      ({ errors := [], liveTempDirs := 1,
         trace := [Event.cloneAttempted "https://example.com/r.git" (some "feature")] },
       Except.error 128) :=
  ⟨(clone_failure_aborts_without_cleanup envFailW payloadEmpty st0 128).1 rfl,
   (clone_failure_aborts_without_cleanup envFailW payloadPR st0 128).2 (by decide) rfl⟩

/-- C8: the result log is append-only — every delivery leaves the prior log
as a prefix — and GET /errors after any sequence of deliveries returns the
initial log followed by the concatenation, in delivery order, of exactly
what each delivery appended (no truncation, no deduplication). -/
theorem result_log_append_only_and_reported_in_order :
    (∀ (env : Env) (req : Request) (s : St), s.errors <+: (deliver env s req).errors) ∧
    (∀ (env : Env) (s : St) (reqs : List Request),
        get_errors (deliverAll env s reqs) =
          s.errors ++ (deliveryDeltas env s reqs).flatten) :=
  ⟨fun env req s => deliver_errors_extend env req s,
   fun env s reqs => deliverAll_errors_concat env s reqs⟩

/-- C2 (amended): on a successful clone, the push handler appends exactly
one result string per listed path ending in ".py", in commit order and
added-before-modified order within a commit (paths not ending in ".py" are
skipped without an entry); each ".py" path contributes its `pathResult`
(syntax outcome, then runtime outcome only if syntax is clean, or the
not-found record), and duplicates each produce their own entry since the
appended list is the ordered map over the filtered path list. -/
theorem push_appends_one_result_per_py_path (env : Env) (payload : Payload) (s : St)
    (co : Checkout) (h : env.clonePush payload.clone_url = CloneResult.ok co) :
    (handle_push env payload s).1.errors =
      s.errors ++ (pyFilter (listedPaths payload)).map (pathResult co) := by
  rw [handle_push_ok_eq env payload s co h]
  simp only [pushAppended_eq_map]

/-- Witness for C2's amended theorem, at a payload that mixes an existing
Python file, a non-Python path and a missing Python file. -/
theorem push_appends_one_result_per_py_path_witness :
    (handle_push envW payloadMix st0).1.errors =
      st0.errors ++ (pyFilter (listedPaths payloadMix)).map (pathResult coW) :=
  push_appends_one_result_per_py_path envW payloadMix st0 coW rfl

/-- Counterexample to C2 as stated: the payload lists exactly one path,
"notes.txt", the clone succeeds, and yet the handler appends no result
string at all (the log stays empty), because the path does not end in
".py" — so "exactly one result string per such path" fails. -/
theorem push_nonpy_path_yields_no_entry :
    listedPaths payloadTxt = ["notes.txt"] ∧ st0.errors = [] ∧
    (handle_push envW payloadTxt st0).1.errors = [] :=
  ⟨rfl, rfl, rfl⟩

/-- C4: for a listed ".py" path whose checked-out contents fail to parse,
the push loop appends exactly the one syntax-error entry (path, line
number, parser message) for that listing — the whole appended segment is
the concatenation of per-path contributions and this path's contribution
is that single entry — and the Runtime Checker is never invoked on that
path anywhere in the delivery. -/
theorem compile_error_one_entry_never_run (env : Env) (payload : Payload) (s : St)
    (co : Checkout) (p : String) (f : PyFile) (e : ParseErr)
    (hclone : env.clonePush payload.clone_url = CloneResult.ok co)
    (hmem : p ∈ listedPaths payload)
    (hpy : ends_with p ".py" = true)
    (hf : co p = some f)
    (he : f.compileError = some e) :
    (check_one co p).1 = [compile_error_message p e.lineno e.msg] ∧
    (handle_push env payload s).1.errors =
      s.errors ++ pushAppended co (listedPaths payload) ∧
    (handle_push env payload s).1.trace =
      (s.trace ++ [Event.cloneAttempted payload.clone_url none]) ++
        pushEvents co (listedPaths payload) ∧
    Event.ranFile p ∉ pushEvents co (listedPaths payload) := by
  refine ⟨?_, ?_, ?_, ?_⟩
  · simp [check_one, hpy, hf, compile_check, he]
  · rw [handle_push_ok_eq env payload s co hclone]
  · rw [handle_push_ok_eq env payload s co hclone]
  · exact ranFile_not_mem_pushEvents_of_compile_error co p f e hf he (listedPaths payload)

/-- Witness for C4: the unparsable `bad.py` produces its single
syntax-error entry and is never executed. -/
theorem compile_error_one_entry_never_run_witness :
    (check_one coW "bad.py").1 = [compile_error_message "bad.py" 3 "invalid syntax"] ∧
    (handle_push envW payloadBad st0).1.errors =
      st0.errors ++ pushAppended coW (listedPaths payloadBad) ∧
    (handle_push envW payloadBad st0).1.trace =
      (st0.trace ++ [Event.cloneAttempted payloadBad.clone_url none]) ++
        pushEvents coW (listedPaths payloadBad) ∧
    Event.ranFile "bad.py" ∉ pushEvents coW (listedPaths payloadBad) :=
  compile_error_one_entry_never_run envW payloadBad st0 coW "bad.py" pyBad
    { lineno := 3, msg := "invalid syntax" } rfl (by decide) rfl rfl rfl

/-- C5 (amended): for a listed ".py" path in a commit's added list that
does not exist in the checkout, the per-path contribution is exactly the
"File not found in repo" entry, and no syntax check and no runtime
execution happens for that path anywhere in the delivery. -/
theorem missing_py_file_logged_unchecked (env : Env) (payload : Payload) (s : St)
    (co : Checkout) (p : String)
    (hclone : env.clonePush payload.clone_url = CloneResult.ok co)
    (hmem : p ∈ listedAdded payload)
    (hpy : ends_with p ".py" = true)
    (hnone : co p = none) :
    (check_one co p).1 = [not_found_message p] ∧
    (handle_push env payload s).1.errors =
      s.errors ++ pushAppended co (listedPaths payload) ∧
    Event.compiledFile p ∉ pushEvents co (listedPaths payload) ∧
    Event.ranFile p ∉ pushEvents co (listedPaths payload) := by
  obtain ⟨h1, h2⟩ := not_mem_pushEvents_of_missing co p hnone (listedPaths payload)
  refine ⟨by simp [check_one, hpy, hnone], ?_, h1, h2⟩
  rw [handle_push_ok_eq env payload s co hclone]

/-- Witness for C5's amended theorem: the added-but-missing `gone.py`
yields the not-found entry and no check of any kind. -/
theorem missing_py_file_logged_unchecked_witness :
    (check_one coW "gone.py").1 = [not_found_message "gone.py"] ∧
    (handle_push envW payloadGone st0).1.errors =
      st0.errors ++ pushAppended coW (listedPaths payloadGone) ∧
    Event.compiledFile "gone.py" ∉ pushEvents coW (listedPaths payloadGone) ∧
    Event.ranFile "gone.py" ∉ pushEvents coW (listedPaths payloadGone) :=
  missing_py_file_logged_unchecked envW payloadGone st0 coW "gone.py" rfl (by decide) rfl rfl

/-- Counterexample to C5 as stated: "data.csv" is in the commit's added
list and absent from the checkout, the clone succeeds, and yet no
"file not found" entry (no entry at all) is appended, because the path
does not end in ".py". -/
theorem added_nonpy_missing_yields_no_entry :
    listedAdded payloadCsv = ["data.csv"] ∧ coW "data.csv" = none ∧
    (handle_push envW payloadCsv st0).1.errors = [] :=
  ⟨rfl, rfl, rfl⟩

/-- C10: whenever the push handler, or the pull-request handler on a
qualifying action, returns a structured 200 response, its errors_found
field is the length of the entire process-wide log after the delivery and
its details field is that entire log — which extends (never replaces) the
log of all earlier deliveries. -/
theorem response_reports_entire_log (env : Env) (payload : Payload) (s s1 : St)
    (resp : HttpResponse) :
    (handle_push env payload s = (s1, Except.ok resp) →
        resp.errors_found = some s1.errors.length ∧ resp.details = some s1.errors ∧
        s.errors <+: s1.errors) ∧
    (payload.action ∈ (["opened", "synchronize", "reopened"] : List String) →
      handle_pull_request env payload s = (s1, Except.ok resp) →
        resp.errors_found = some s1.errors.length ∧ resp.details = some s1.errors ∧
        s.errors <+: s1.errors) := by
  constructor
  · intro heq
    cases h : env.clonePush payload.clone_url with
    | ok co =>
        rw [handle_push_ok_eq env payload s co h] at heq
        injection heq with h1 h2
        injection h2 with h3
        subst h1
        subst h3
        exact ⟨rfl, rfl, List.prefix_append ..⟩
    | failed rc =>
        rw [handle_push_failed_eq env payload s rc h] at heq
        injection heq with h1 h2
        injection h2
  · intro ha heq
    cases h : env.clonePR payload.head_ref payload.clone_url with
    | ok entries =>
        rw [handle_pr_ok_eq env payload s entries ha h] at heq
        injection heq with h1 h2
        injection h2 with h3
        subst h1
        subst h3
        exact ⟨rfl, rfl, List.prefix_append ..⟩
    | failed rc =>
        rw [handle_pr_failed_eq env payload s rc ha h] at heq
        injection heq with h1 h2
        injection h2

/-- Witness for C10: a push onto a log holding one earlier entry reports
errors_found = 1 and details = the whole log including that earlier
entry. -/
theorem response_reports_entire_log_witness :
    respC10.errors_found = some stC10.errors.length ∧
    respC10.details = some stC10.errors ∧
    stOld.errors <+: stC10.errors :=
  (response_reports_entire_log envW payloadEmpty stOld stC10 respC10).1 rfl

end GitApp
